import Mathlib

/-!
Shallow embedding of the pollution-analysis logic of the Marine Guard
("oceanwatch-policymaker") repository.

The repository contains two text-analysis implementations sharing the same
policy-matching tail:
  * `MLAnalysis.analyzeText` / `MLAnalysis.analyzeImage` embed the functions of
    `src/unnamed/part_001` (the ML-wrapper module);
  * `PollutionHook.analyzeText` embeds the keyword-based `analyzeText` of
    `src/src/hooks/usePollutionData.tsx` (its `analyzeImage` is verbatim the
    same as the one in `src/unnamed/part_001`);
  * `PollutionDetector.simulateAnalysis` embeds the mocked analysis of the
    `PollutionDetector` component in `src/src/pages/Index.tsx`.

Model-loading, network and DOM effects are dropped; each model invocation's
result becomes an explicit argument of the embedded function.  The calls to the
`onProgress` callback are accumulated into the first component of the result
(the list of progress percentages in call order).  The random `location`
rectangles of image results (`Math.random()` positions, demo only) are omitted
from the embedding; no claim concerns them.  Numbers are modelled as rationals.
-/

namespace OceanWatch

/-- Character-list version of a contiguous-prefix test, used to model the JS
substring test. -/
def listHasPre : List Char → List Char → Bool
  | _, [] => true
  | [], _ :: _ => false
  | c :: cs, p :: ps => c == p && listHasPre cs ps

/-- Character-list version of a contiguous-substring test. -/
def listHasSub : List Char → List Char → Bool
  | [], pat => pat.isEmpty
  | c :: rest, pat => listHasPre (c :: rest) pat || listHasSub rest pat

/-- Models `s.includes(pat)` of JS: `pat` occurs contiguously in `s`. -/
def strContains (s pat : String) : Bool :=
  listHasSub s.toList pat.toList

/-- Models `s.toLowerCase()` of JS on the ASCII data used by the repository. -/
def strLower (s : String) : String :=
  String.mk (s.toList.map Char.toLower)

/-- The `type` union of `PolicyDocument` in both analysis modules. -/
inductive DocType where
  | regulation | framework | agreement | law
  deriving DecidableEq, Inhabited

/-- The `status` union of `PolicyDocument`. -/
inductive DocStatus where
  | active | draft | archived
  deriving DecidableEq, Inhabited

/-- The `complianceStatus` union of `PolicyMatch`. -/
inductive Compliance where
  | compliant | violation | unclear
  deriving DecidableEq, Inhabited

/-- The `severity` union used by image analysis and the detector component. -/
inductive Severity where
  | low | medium | high | critical
  deriving DecidableEq, Inhabited

/-- The `PolicyDocument` interface of both analysis modules. -/
structure PolicyDocument where
  id : String
  title : String
  type : DocType
  jurisdiction : String
  summary : String
  keyEntities : List String
  relevanceScore : ℚ
  lastUpdated : String
  status : DocStatus
  deriving DecidableEq, Inhabited

/-- The `PolicyMatch` interface of both analysis modules. -/
structure PolicyMatch where
  document : PolicyDocument
  matchedSections : List String
  complianceStatus : Compliance
  recommendations : List String
  deriving DecidableEq, Inhabited

/-- Output object of the zero-shot classifier: parallel `labels` and `scores`
arrays, best label first. -/
structure Classification where
  labels : List String
  scores : List ℚ
  deriving DecidableEq, Inhabited

/-- One element of the sentiment-analysis pipeline output. -/
structure SentimentResult where
  label : String
  score : ℚ
  deriving DecidableEq, Inhabited

/-- One image-classifier prediction. -/
structure Prediction where
  label : String
  score : ℚ
  deriving DecidableEq, Inhabited

/-- The `ImageAnalysisResult` interface, without the random demo `location`
rectangle (see the module docstring). -/
structure ImageAnalysisResult where
  type : String
  confidence : ℚ
  severity : Severity
  deriving DecidableEq, Inhabited

/-- The hardcoded `policyDatabase` entry "MARPOL Convention - Annex V". -/
def marpolDoc : PolicyDocument :=
  { id := "1"
    title := "MARPOL Convention - Annex V (Garbage)"
    type := .agreement
    jurisdiction := "International (IMO)"
    summary := "Prohibits discharge of garbage from ships, including plastics and other harmful substances"
    keyEntities := ["plastic waste", "ship discharge", "special areas", "penalties"]
    relevanceScore := 95/100
    lastUpdated := "2023-12-01"
    status := .active }

/-- The hardcoded `policyDatabase` entry "EU Marine Strategy Framework Directive". -/
def msfdDoc : PolicyDocument :=
  { id := "2"
    title := "EU Marine Strategy Framework Directive"
    type := .framework
    jurisdiction := "European Union"
    summary := "Establishes framework for marine environmental protection with specific targets for marine litter"
    keyEntities := ["marine litter", "good environmental status", "member states", "monitoring"]
    relevanceScore := 88/100
    lastUpdated := "2023-11-15"
    status := .active }

/-- The hardcoded `policyDatabase` entry "Clean Water Act - Marine Protection". -/
def cwaDoc : PolicyDocument :=
  { id := "3"
    title := "Clean Water Act - Marine Protection"
    type := .law
    jurisdiction := "United States"
    summary := "Federal law governing water pollution, including marine environments and coastal zones"
    keyEntities := ["water pollution", "discharge permits", "coastal zones", "enforcement"]
    relevanceScore := 82/100
    lastUpdated := "2023-10-20"
    status := .active }

/-- The mock `policyDatabase`, identical in `src/unnamed/part_001` (lines
205-239) and `src/src/hooks/usePollutionData.tsx` (lines 690-724). -/
def policyDatabase : List PolicyDocument :=
  [marpolDoc, msfdDoc, cwaDoc]

/-- One step of the `policyDatabase.map((policy, index) => ...)` body shared
verbatim by `src/unnamed/part_001` (lines 245-269) and
`src/src/hooks/usePollutionData.tsx` (lines 730-754). -/
def mkMatch (topPollutionType : String) (confidence : ℚ) (idx : Nat)
    (policy : PolicyDocument) : PolicyMatch :=
  let relevanceScore : ℚ := max (6/10) (confidence * policy.relevanceScore)
  let complianceStatus : Compliance :=
    if 8/10 < confidence then
      if idx = 0 then .violation else if idx = 1 then .unclear else .compliant
    else .unclear
  { document := { policy with relevanceScore := relevanceScore }
    matchedSections :=
      ["Section related to " ++ topPollutionType,
       "Compliance requirements for " ++ topPollutionType]
    complianceStatus := complianceStatus
    recommendations :=
      ["Address " ++ topPollutionType ++ " according to " ++ policy.title,
       "Implement immediate mitigation measures",
       "Report to relevant authorities as required"] }

/-- The `matches` array built by mapping `mkMatch` over the policy database
with indices. -/
def mkMatches (topPollutionType : String) (confidence : ℚ) : List PolicyMatch :=
  policyDatabase.mapIdx (fun idx policy => mkMatch topPollutionType confidence idx policy)

/-- The sort key used by `matches.sort((a, b) => b.document.relevanceScore -
a.document.relevanceScore)`. -/
def relKey (m : PolicyMatch) : ℚ := m.document.relevanceScore

/-- Descending-relevance comparison relation induced by the JS comparator. -/
def matchGE (a b : PolicyMatch) : Prop := relKey b ≤ relKey a

instance : DecidableRel matchGE :=
  fun a b => inferInstanceAs (Decidable (relKey b ≤ relKey a))

/-- Models `matches.sort((a, b) => b.document.relevanceScore -
a.document.relevanceScore)`: sorting into non-increasing relevance order. -/
def sortMatches (matchList : List PolicyMatch) : List PolicyMatch :=
  List.insertionSort matchGE matchList

namespace MLAnalysis

/-- `pollutionClassification.labels[0]` (the top zero-shot label). -/
def zsTopLabel (cls : Classification) : String := cls.labels.headD ""

/-- `pollutionClassification.scores[0]` (the top zero-shot score). -/
def zsConfidence (cls : Classification) : ℚ := cls.scores.headD 0

/-- Embeds `analyzeText` of `src/unnamed/part_001` (lines 177-278).  The
zero-shot classification and the sentiment-analysis output are passed in as the
results of the two model invocations; the first component collects the
`onProgress` calls. -/
def analyzeText (classification : Classification)
    (sentiment : List SentimentResult) : List Nat × List PolicyMatch :=
  let progress0 : List Nat := [20, 40]
  let progress1 : List Nat := progress0 ++ [60]
  let _sentimentResult := sentiment
  let progress2 : List Nat := progress1 ++ [80]
  let topPollutionType := zsTopLabel classification
  let confidence := zsConfidence classification
  let matchList := mkMatches topPollutionType confidence
  let progress3 : List Nat := progress2 ++ [100]
  (progress3, sortMatches matchList)

/-- The `pollutionKeywords` array of `analyzeImage` (line 106). -/
def pollutionKeywords : List String :=
  ["plastic", "waste", "trash", "debris", "oil", "spill", "contamination",
   "pollution", "garbage", "litter"]

/-- The `isPollutionRelated` test of `analyzeImage` (lines 114-116):
the lowercased label contains the keyword or the keyword contains the label. -/
def isPollutionRelated (prediction : Prediction) : Bool :=
  let label := strLower prediction.label
  pollutionKeywords.any (fun keyword =>
    strContains label keyword || strContains keyword label)

/-- The inclusion guard of `analyzeImage` (line 118):
`isPollutionRelated || score > 0.3`. -/
def includePred (prediction : Prediction) : Bool :=
  isPollutionRelated prediction || decide ((3 : ℚ)/10 < prediction.score)

/-- The pollution-type / severity branch of `analyzeImage` (lines 119-147). -/
def classifyPred (prediction : Prediction) : ImageAnalysisResult :=
  let label := strLower prediction.label
  let score := prediction.score
  if strContains label "plastic" || strContains label "trash" || strContains label "garbage" then
    { type := "Plastic Debris", confidence := score
      severity := if 7/10 < score then .high else if 5/10 < score then .medium else .low }
  else if strContains label "oil" || strContains label "spill" then
    { type := "Oil Contamination", confidence := score
      severity := if 6/10 < score then .critical else if 4/10 < score then .high else .medium }
  else if strContains label "chemical" || strContains label "contamination" then
    { type := "Chemical Waste", confidence := score
      severity := if 6/10 < score then .critical else if 4/10 < score then .high else .medium }
  else
    { type := prediction.label, confidence := score
      severity := if 8/10 < score then .high else if 6/10 < score then .medium else .low }

/-- The `results` array after the `predictions.forEach` loop of `analyzeImage`
(lines 109-149). -/
def filteredResults (predictions : List Prediction) : List ImageAnalysisResult :=
  predictions.filterMap (fun prediction =>
    if includePred prediction then some (classifyPred prediction) else none)

/-- The generic fallback result built from the top prediction (lines 154-167). -/
def mkFallback (topPrediction : Prediction) : ImageAnalysisResult :=
  { type := "Potential " ++ topPrediction.label
    confidence := topPrediction.score
    severity := if 7/10 < topPrediction.score then .medium else .low }

/-- Embeds `analyzeImage` of `src/unnamed/part_001` (lines 95-174); the list of
classifier predictions is passed in as the model-invocation result.  The same
function appears verbatim in `src/src/hooks/usePollutionData.tsx`
(lines 562-642). -/
def analyzeImage (predictions : List Prediction) : List Nat × List ImageAnalysisResult :=
  let progress0 : List Nat := [20, 40]
  let progress1 : List Nat := progress0 ++ [70]
  let results := filteredResults predictions
  let progress2 : List Nat := progress1 ++ [100]
  let results :=
    if results.length = 0 then
      match predictions with
      | [] => results
      | topPrediction :: _ => [mkFallback topPrediction]
    else results
  (progress2, results.take 5)

end MLAnalysis

namespace PollutionHook

/-- The `pollutionKeywords` table of the keyword-based `analyzeText` of
`src/src/hooks/usePollutionData.tsx` (lines 662-669), in object-entry order. -/
def pollutionKeywordTable : List (String × List String) :=
  [("plastic pollution", ["plastic", "microplastic", "bottle", "bag", "debris"]),
   ("oil spill", ["oil", "spill", "petroleum", "crude", "leak"]),
   ("chemical contamination", ["chemical", "toxic", "contamination", "pollutant"]),
   ("marine debris", ["debris", "trash", "garbage", "waste", "litter"]),
   ("industrial waste", ["industrial", "factory", "discharge", "effluent"]),
   ("sewage discharge", ["sewage", "wastewater", "runoff", "drainage"])]

/-- The `for (const [type, keywords] of Object.entries(pollutionKeywords))`
loop (lines 674-683): the first entry with a positive match count wins and the
loop breaks; the initial values `('general pollution', 0.5)` survive when no
entry matches. -/
def detectLoop (lower : String) : List (String × List String) → String × ℚ
  | [] => ("general pollution", 1/2)
  | (ty, keywords) :: rest =>
    let matchCount := (keywords.filter (fun keyword => strContains lower keyword)).length
    if 0 < matchCount then
      (ty, min (9/10) (1/2 + (matchCount : ℚ) * (1/10)))
    else
      detectLoop lower rest

/-- The keyword-based pollution-type detection of
`src/src/hooks/usePollutionData.tsx` (lines 661-683): the text is lowercased
and scanned against the keyword table. -/
def detectPollution (text : String) : String × ℚ :=
  detectLoop (strLower text) pollutionKeywordTable

/-- The detected type (`detectedType` after the loop). -/
def kwTopType (text : String) : String := (detectPollution text).1

/-- The detected confidence (`confidence` after the loop). -/
def kwConfidence (text : String) : ℚ := (detectPollution text).2

/-- Embeds `analyzeText` of `src/src/hooks/usePollutionData.tsx`
(lines 645-763).  The output of the `classifier(text)` call (bound to
`sentiment`, line 656, and never read afterwards) is passed in as an argument;
the first component collects the `onProgress` calls. -/
def analyzeText (text : String) (sentiment : List SentimentResult) :
    List Nat × List PolicyMatch :=
  let progress0 : List Nat := [20, 40]
  let _sentimentResult := sentiment
  let progress1 : List Nat := progress0 ++ [60]
  let detected := detectPollution text
  let topPollutionType := detected.1
  let analysisConfidence := detected.2
  let progress2 : List Nat := progress1 ++ [80]
  let matchList := mkMatches topPollutionType analysisConfidence
  let progress3 : List Nat := progress2 ++ [100]
  (progress3, sortMatches matchList)

/-- Modelled from the claim wording of C1, for the refinement comparison with
`detectPollution`: the detected pollution type is the FIRST category, in the
fixed table order, for which at least one of that category's keywords occurs in
the lowercased text, with confidence `min(0.9, 0.5 + 0.1 * matchCount)` where
`matchCount` counts that category's keywords occurring in the text; if no
category matches, `('general pollution', 0.5)`. -/
def specFind (lower : String) (table : List (String × List String)) : String × ℚ :=
  match table.find? (fun entry => entry.2.any (fun keyword => strContains lower keyword)) with
  | some entry =>
      (entry.1,
       min (9/10)
         (1/2 + (1/10) * ((entry.2.filter (fun keyword => strContains lower keyword)).length : ℚ)))
  | none => ("general pollution", 1/2)

/-- The claim-side detection function: `specFind` over the fixed table on the
lowercased text. -/
def specDetect (text : String) : String × ℚ :=
  specFind (strLower text) pollutionKeywordTable

end PollutionHook

namespace PollutionDetector

/-- The bounding-box object of the detector component's `DetectionResult`. -/
structure BBox where
  x : ℚ
  y : ℚ
  width : ℚ
  height : ℚ
  deriving DecidableEq, Inhabited

/-- The `DetectionResult` interface of the `PollutionDetector` component in
`src/src/pages/Index.tsx`. -/
structure DetectionResult where
  type : String
  confidence : ℚ
  location : BBox
  severity : Severity
  deriving DecidableEq, Inhabited

/-- One entry of the fixed `steps` array of `simulateAnalysis` (lines 190-196). -/
structure AnalysisStep where
  progress : Nat
  message : String
  deriving DecidableEq, Inhabited

/-- The fixed `steps` array of `simulateAnalysis`. -/
def analysisSteps : List AnalysisStep :=
  [⟨20, "Preprocessing image..."⟩,
   ⟨45, "Running CNN detection..."⟩,
   ⟨70, "Analyzing pollution patterns..."⟩,
   ⟨90, "Generating report..."⟩,
   ⟨100, "Analysis complete!"⟩]

/-- The hardcoded `mockResults` of `simulateAnalysis` (lines 204-223). -/
def mockResults : List DetectionResult :=
  [{ type := "Plastic Debris", confidence := 94/100
     location := ⟨120, 80, 150, 100⟩, severity := .high },
   { type := "Oil Contamination", confidence := 87/100
     location := ⟨300, 200, 200, 120⟩, severity := .critical },
   { type := "Chemical Waste", confidence := 76/100
     location := ⟨50, 300, 180, 90⟩, severity := .medium }]

/-- Embeds `simulateAnalysis` of `src/src/pages/Index.tsx` (lines 183-232):
with no image file it returns immediately; otherwise it waits 800 ms before
each progress step and then sets the fixed mock results.  Modelled as the
trace of `(delay in ms, progress)` pairs together with the final results. -/
def simulateAnalysis (imageFile : Option String) :
    Option (List (Nat × Nat) × List DetectionResult) :=
  match imageFile with
  | none => none
  | some _ => some (analysisSteps.map (fun step => (800, step.progress)), mockResults)

end PollutionDetector

/-! ### Helper lemmas -/

/-- Monotonicity of the clamped relevance score in the base score: holds for
every rational confidence, positive or not. -/
theorem maxConf_mono (c : ℚ) {x y : ℚ} (hx : 0 ≤ x) (hxy : x ≤ y) :
    max (6/10) (c * x) ≤ max (6/10) (c * y) := by
  rcases le_or_lt 0 c with hc | hc
  · exact max_le_max le_rfl (mul_le_mul_of_nonneg_left hxy hc)
  · have h1 : c * x ≤ 6/10 :=
      le_trans (mul_nonpos_iff.mpr (Or.inr ⟨hc.le, hx⟩)) (by norm_num)
    have h2 : c * y ≤ 6/10 :=
      le_trans (mul_nonpos_iff.mpr (Or.inr ⟨hc.le, hx.trans hxy⟩)) (by norm_num)
    rw [max_eq_left h1, max_eq_left h2]

/-- The mapped `matches` array spelt out entry by entry. -/
theorem mkMatches_eq (t : String) (c : ℚ) :
    mkMatches t c = [mkMatch t c 0 marpolDoc, mkMatch t c 1 msfdDoc, mkMatch t c 2 cwaDoc] :=
  rfl

/-- The relevance score written into a match. -/
theorem relKey_mkMatch (t : String) (c : ℚ) (idx : Nat) (p : PolicyDocument) :
    relKey (mkMatch t c idx p) = max (6/10) (c * p.relevanceScore) :=
  rfl

/-- The mapped `matches` array is already in non-increasing relevance order for
every confidence value. -/
theorem mkMatches_sorted (t : String) (c : ℚ) :
    List.Sorted matchGE (mkMatches t c) := by
  have h01 : matchGE (mkMatch t c 0 marpolDoc) (mkMatch t c 1 msfdDoc) :=
    maxConf_mono c (by norm_num [msfdDoc]) (by norm_num [msfdDoc, marpolDoc])
  have h02 : matchGE (mkMatch t c 0 marpolDoc) (mkMatch t c 2 cwaDoc) :=
    maxConf_mono c (by norm_num [cwaDoc]) (by norm_num [cwaDoc, marpolDoc])
  have h12 : matchGE (mkMatch t c 1 msfdDoc) (mkMatch t c 2 cwaDoc) :=
    maxConf_mono c (by norm_num [cwaDoc]) (by norm_num [cwaDoc, msfdDoc])
  rw [mkMatches_eq]
  simp only [List.sorted_cons, List.mem_cons, List.mem_singleton, List.not_mem_nil]
  refine ⟨fun b hb => ?_, ⟨fun b hb => ?_, by simp [List.sorted_cons]⟩⟩
  · rcases hb with hb | hb | hb
    · exact hb ▸ h01
    · exact hb ▸ h02
    · simp at hb
  · rcases hb with hb | hb
    · exact hb ▸ h12
    · simp at hb

/-- The JS sort leaves the mapped `matches` array unchanged. -/
theorem sortMatches_mkMatches (t : String) (c : ℚ) :
    sortMatches (mkMatches t c) = mkMatches t c :=
  (mkMatches_sorted t c).insertionSort_eq

/-- The match list returned by the ML-module `analyzeText`. -/
theorem mlAnalyzeText_snd (cls : Classification) (sentiment : List SentimentResult) :
    (MLAnalysis.analyzeText cls sentiment).2 =
      mkMatches (MLAnalysis.zsTopLabel cls) (MLAnalysis.zsConfidence cls) :=
  sortMatches_mkMatches _ _

/-- The match list returned by the keyword-based `analyzeText`. -/
theorem hookAnalyzeText_snd (text : String) (sentiment : List SentimentResult) :
    (PollutionHook.analyzeText text sentiment).2 =
      mkMatches (PollutionHook.kwTopType text) (PollutionHook.kwConfidence text) :=
  sortMatches_mkMatches _ _

/-- The compliance statuses of the mapped matches, in database order. -/
theorem mkMatches_status_map (t : String) (c : ℚ) :
    (mkMatches t c).map (fun m => m.complianceStatus) =
      if 8/10 < c then [Compliance.violation, Compliance.unclear, Compliance.compliant]
      else [Compliance.unclear, Compliance.unclear, Compliance.unclear] := by
  by_cases h : (8:ℚ)/10 < c <;>
    simp [mkMatches_eq, mkMatch, h]

/-- Every mapped match keeps all document fields except the relevance score
from its database entry. -/
theorem mkMatches_frame (t : String) (c : ℚ) (m : PolicyMatch)
    (hm : m ∈ mkMatches t c) :
    ∃ p ∈ policyDatabase,
      m.document.id = p.id ∧ m.document.title = p.title ∧
      m.document.type = p.type ∧ m.document.jurisdiction = p.jurisdiction ∧
      m.document.summary = p.summary ∧ m.document.keyEntities = p.keyEntities ∧
      m.document.lastUpdated = p.lastUpdated ∧ m.document.status = p.status := by
  rw [mkMatches_eq] at hm
  simp only [List.mem_cons, List.not_mem_nil, or_false] at hm
  rcases hm with hm | hm | hm
  · exact ⟨marpolDoc, by simp [policyDatabase], by subst hm; exact ⟨rfl, rfl, rfl, rfl, rfl, rfl, rfl, rfl⟩⟩
  · exact ⟨msfdDoc, by simp [policyDatabase], by subst hm; exact ⟨rfl, rfl, rfl, rfl, rfl, rfl, rfl, rfl⟩⟩
  · exact ⟨cwaDoc, by simp [policyDatabase], by subst hm; exact ⟨rfl, rfl, rfl, rfl, rfl, rfl, rfl, rfl⟩⟩

/-- The break-at-first-match loop agrees with the find-the-first-matching-entry
description for every table. -/
theorem detectLoop_eq_specFind (lower : String) :
    ∀ table, PollutionHook.detectLoop lower table = PollutionHook.specFind lower table := by
  intro table
  induction table with
  | nil => rfl
  | cons entry rest ih =>
    obtain ⟨ty, keywords⟩ := entry
    by_cases h : keywords.any (fun keyword => strContains lower keyword) = true
    · have hpos : 0 < (keywords.filter (fun keyword => strContains lower keyword)).length := by
        rw [← List.countP_eq_length_filter]
        exact List.countP_pos_iff.mpr (by simpa using List.any_eq_true.mp h)
      simp only [PollutionHook.detectLoop, PollutionHook.specFind, List.find?_cons, h]
      rw [if_pos hpos]
      simp [mul_comm]
    · have hb : keywords.any (fun keyword => strContains lower keyword) = false :=
        Bool.not_eq_true _ ▸ eq_false_of_ne_true h
      have hz : ¬ 0 < (keywords.filter (fun keyword => strContains lower keyword)).length := by
        rw [← List.countP_eq_length_filter]
        simp only [Nat.pos_iff_ne_zero, ne_eq, not_not]
        refine List.countP_eq_zero.mpr fun a ha hfa => h (List.any_eq_true.mpr ⟨a, ha, hfa⟩)
      simp only [PollutionHook.detectLoop, PollutionHook.specFind, List.find?_cons, hb]
      rw [if_neg hz]
      exact ih

/-! ### Claim theorems -/

/-- Claim C1: for every input text, the keyword-based analysis detects as
pollution type the first category, in the fixed table order, with at least one
keyword occurring in the lowercased text, with confidence
`min(0.9, 0.5 + 0.1 * matchCount)`; with no matching category it detects
`general pollution` at confidence `0.5`.  Stated as the agreement of the
embedded loop with the claim-worded `specDetect`. -/
theorem claim1_detect_first_category (text : String) :
    PollutionHook.detectPollution text = PollutionHook.specDetect text :=
  detectLoop_eq_specFind (strLower text) PollutionHook.pollutionKeywordTable

/-- Claim C2: for every classifier/sentiment result (and every input text),
both `analyzeText` versions return exactly one match per entry of the fixed
3-document policy database, in particular always exactly 3 matches, whose
document ids enumerate exactly the database ids. -/
theorem claim2_three_matches (cls : Classification) (sentiment : List SentimentResult)
    (text : String) (sentiment₂ : List SentimentResult) :
    ((MLAnalysis.analyzeText cls sentiment).2).length = 3
    ∧ ((MLAnalysis.analyzeText cls sentiment).2).map (fun m => m.document.id)
        = policyDatabase.map (fun p => p.id)
    ∧ ((PollutionHook.analyzeText text sentiment₂).2).length = 3
    ∧ ((PollutionHook.analyzeText text sentiment₂).2).map (fun m => m.document.id)
        = policyDatabase.map (fun p => p.id) := by
  refine ⟨?_, ?_, ?_, ?_⟩
  · rw [mlAnalyzeText_snd]; rfl
  · rw [mlAnalyzeText_snd]; rfl
  · rw [hookAnalyzeText_snd]; rfl
  · rw [hookAnalyzeText_snd]; rfl

/-- Claim C3: each returned match carries relevance score
`max(0.6, confidence * basePolicyRelevanceScore)` with the hardcoded base
scores 0.95, 0.88, 0.82, and both returned lists are in non-increasing order
of relevance score. -/
theorem claim3_relevance_scores (cls : Classification) (sentiment : List SentimentResult)
    (text : String) (sentiment₂ : List SentimentResult) :
    ((MLAnalysis.analyzeText cls sentiment).2).map (fun m => m.document.relevanceScore)
      = [max (6/10) (MLAnalysis.zsConfidence cls * (95/100)),
         max (6/10) (MLAnalysis.zsConfidence cls * (88/100)),
         max (6/10) (MLAnalysis.zsConfidence cls * (82/100))]
    ∧ List.Chain' (fun a b => b.document.relevanceScore ≤ a.document.relevanceScore)
        ((MLAnalysis.analyzeText cls sentiment).2)
    ∧ ((PollutionHook.analyzeText text sentiment₂).2).map (fun m => m.document.relevanceScore)
      = [max (6/10) (PollutionHook.kwConfidence text * (95/100)),
         max (6/10) (PollutionHook.kwConfidence text * (88/100)),
         max (6/10) (PollutionHook.kwConfidence text * (82/100))]
    ∧ List.Chain' (fun a b => b.document.relevanceScore ≤ a.document.relevanceScore)
        ((PollutionHook.analyzeText text sentiment₂).2) := by
  refine ⟨?_, ?_, ?_, ?_⟩
  · rw [mlAnalyzeText_snd]; rfl
  · rw [mlAnalyzeText_snd]
    exact List.Pairwise.chain' (mkMatches_sorted _ _)
  · rw [hookAnalyzeText_snd]; rfl
  · rw [hookAnalyzeText_snd]
    exact List.Pairwise.chain' (mkMatches_sorted _ _)

/-- Claim C4: each returned match has compliance status `unclear` when the
classification confidence is at most 0.8; above 0.8 the statuses are
`violation`, `unclear`, `compliant` for the first, second and third database
policy, independent of the text content. -/
theorem claim4_compliance_statuses (cls : Classification) (sentiment : List SentimentResult)
    (text : String) (sentiment₂ : List SentimentResult) :
    ((MLAnalysis.analyzeText cls sentiment).2).map (fun m => m.complianceStatus)
      = (if 8/10 < MLAnalysis.zsConfidence cls then
           [Compliance.violation, Compliance.unclear, Compliance.compliant]
         else [Compliance.unclear, Compliance.unclear, Compliance.unclear])
    ∧ ((PollutionHook.analyzeText text sentiment₂).2).map (fun m => m.complianceStatus)
      = (if 8/10 < PollutionHook.kwConfidence text then
           [Compliance.violation, Compliance.unclear, Compliance.compliant]
         else [Compliance.unclear, Compliance.unclear, Compliance.unclear]) := by
  constructor
  · rw [mlAnalyzeText_snd]
    exact mkMatches_status_map _ _
  · rw [hookAnalyzeText_snd]
    exact mkMatches_status_map _ _

/-- Claim C5 (amended): the sentiment-analysis result is computed but never
used; the policy matches of both `analyzeText` versions are entirely
independent of it — any two runs agreeing on the classifier output (or the
text) return identical results whatever the sentiment outputs are. -/
theorem claim5_sentiment_unused (cls : Classification)
    (sentiment₁ sentiment₂ : List SentimentResult) (text : String) :
    MLAnalysis.analyzeText cls sentiment₁ = MLAnalysis.analyzeText cls sentiment₂
    ∧ PollutionHook.analyzeText text sentiment₁ = PollutionHook.analyzeText text sentiment₂ :=
  ⟨rfl, rfl⟩

/-- Claim C5 counterexample: a concrete pair of runs on the same classifier
output whose sentiment-analysis outputs differ and whose match lists are
nevertheless equal, contradicting the claimed dependence on sentiment. -/
theorem claim5_counterexample :
    ([⟨"positive", 99/100⟩] : List SentimentResult) ≠ [⟨"negative", 1/100⟩]
    ∧ (MLAnalysis.analyzeText ⟨["oil spill"], [9/10]⟩ [⟨"positive", 99/100⟩]).2
        = (MLAnalysis.analyzeText ⟨["oil spill"], [9/10]⟩ [⟨"negative", 1/100⟩]).2 := by
  refine ⟨fun heq => ?_, rfl⟩
  have : ("positive" : String) = "negative" := congrArg SentimentResult.label (List.head_eq_of_cons_eq heq)
  simp at this

/-- Claim C7: the detector component's `simulateAnalysis` ignores the uploaded
image entirely: every image produces the same trace of five progress steps
(20, 45, 70, 90, 100, each preceded by an 800 ms delay) and the same three
hardcoded detection results; with no image it does nothing. -/
theorem claim7_simulate_fixed (imageFile : String) :
    PollutionDetector.simulateAnalysis (some imageFile) =
      some ([(800, 20), (800, 45), (800, 70), (800, 90), (800, 100)],
        [{ type := "Plastic Debris", confidence := 94/100
           location := ⟨120, 80, 150, 100⟩, severity := .high },
         { type := "Oil Contamination", confidence := 87/100
           location := ⟨300, 200, 200, 120⟩, severity := .critical },
         { type := "Chemical Waste", confidence := 76/100
           location := ⟨50, 300, 180, 90⟩, severity := .medium }])
    ∧ PollutionDetector.simulateAnalysis none = none :=
  ⟨rfl, rfl⟩

/-- Claim C8: in every run the progress values reported by `analyzeText`
(both versions) are exactly 20, 40, 60, 80, 100 and by `analyzeImage` exactly
20, 40, 70, 100 — a strictly increasing sequence ending at 100, so progress
never decreases within a run. -/
theorem claim8_progress_monotone (cls : Classification) (sentiment : List SentimentResult)
    (text : String) (sentiment₂ : List SentimentResult) (predictions : List Prediction) :
    (MLAnalysis.analyzeText cls sentiment).1 = [20, 40, 60, 80, 100]
    ∧ (PollutionHook.analyzeText text sentiment₂).1 = [20, 40, 60, 80, 100]
    ∧ (MLAnalysis.analyzeImage predictions).1 = [20, 40, 70, 100]
    ∧ List.Chain' (fun a b => a < b) (MLAnalysis.analyzeText cls sentiment).1
    ∧ List.Chain' (fun a b => a < b) (PollutionHook.analyzeText text sentiment₂).1
    ∧ List.Chain' (fun a b => a < b) (MLAnalysis.analyzeImage predictions).1
    ∧ (MLAnalysis.analyzeText cls sentiment).1.getLast? = some 100
    ∧ (PollutionHook.analyzeText text sentiment₂).1.getLast? = some 100
    ∧ (MLAnalysis.analyzeImage predictions).1.getLast? = some 100 := by
  refine ⟨rfl, rfl, rfl, ?_, ?_, ?_, rfl, rfl, rfl⟩
  · show List.Chain' (fun a b => a < b) [20, 40, 60, 80, 100]
    simp [List.chain'_cons]
  · show List.Chain' (fun a b => a < b) [20, 40, 60, 80, 100]
    simp [List.chain'_cons]
  · show List.Chain' (fun a b => a < b) [20, 40, 70, 100]
    simp [List.chain'_cons]

/-- A prediction classified as oil or chemical pollution gets its severity from
the shared oil/chemical threshold ladder. -/
theorem classifyPred_oil_chem_severity (p : Prediction)
    (h : (MLAnalysis.classifyPred p).type = "Oil Contamination"
       ∨ (MLAnalysis.classifyPred p).type = "Chemical Waste") :
    (MLAnalysis.classifyPred p).severity =
      (if (6:ℚ)/10 < p.score then Severity.critical
       else if (4:ℚ)/10 < p.score then Severity.high else Severity.medium) := by
  by_cases h1 : (strContains (strLower p.label) "plastic"
      || strContains (strLower p.label) "trash"
      || strContains (strLower p.label) "garbage") = true
  · have ht : (MLAnalysis.classifyPred p).type = "Plastic Debris" := by
      simp only [MLAnalysis.classifyPred]
      rw [if_pos h1]
    rw [ht] at h
    simp at h
  · by_cases h2 : (strContains (strLower p.label) "oil"
        || strContains (strLower p.label) "spill") = true
    · simp only [MLAnalysis.classifyPred]
      rw [if_neg h1, if_pos h2]
    · by_cases h3 : (strContains (strLower p.label) "chemical"
          || strContains (strLower p.label) "contamination") = true
      · simp only [MLAnalysis.classifyPred]
        rw [if_neg h1, if_neg h2, if_pos h3]
      · have ht : (MLAnalysis.classifyPred p).type = p.label := by
          simp only [MLAnalysis.classifyPred]
          rw [if_neg h1, if_neg h2, if_neg h3]
        rw [ht] at h
        rcases h with hl | hl
        · rw [hl] at h2
          exact absurd (by decide :
            (strContains (strLower "Oil Contamination") "oil"
              || strContains (strLower "Oil Contamination") "spill") = true) h2
        · rw [hl] at h3
          exact absurd (by decide :
            (strContains (strLower "Chemical Waste") "chemical"
              || strContains (strLower "Chemical Waste") "contamination") = true) h3

/-- Claim C6: a prediction contributes a result of the image-analysis filter
stage exactly when its lowercased label matches the fixed keyword list (label
contains keyword or keyword contains label) or its score exceeds 0.3; and an
included prediction labelled oil or chemical gets severity critical above 0.6,
high above 0.4, and medium otherwise. -/
theorem claim6_image_filter (predictions : List Prediction) :
    (∀ p ∈ predictions, MLAnalysis.includePred p = true →
        MLAnalysis.classifyPred p ∈ MLAnalysis.filteredResults predictions)
    ∧ (∀ r ∈ MLAnalysis.filteredResults predictions, ∃ p ∈ predictions,
        MLAnalysis.includePred p = true ∧ r = MLAnalysis.classifyPred p)
    ∧ (∀ p : Prediction, MLAnalysis.includePred p =
        ((MLAnalysis.pollutionKeywords.any fun keyword =>
            strContains (strLower p.label) keyword
              || strContains keyword (strLower p.label))
          || decide ((3:ℚ)/10 < p.score)))
    ∧ (∀ p : Prediction,
        ((MLAnalysis.classifyPred p).type = "Oil Contamination"
          ∨ (MLAnalysis.classifyPred p).type = "Chemical Waste") →
        (MLAnalysis.classifyPred p).severity =
          (if (6:ℚ)/10 < p.score then Severity.critical
           else if (4:ℚ)/10 < p.score then Severity.high else Severity.medium)) := by
  refine ⟨?_, ?_, fun p => rfl, classifyPred_oil_chem_severity⟩
  · intro p hp hinc
    simp only [MLAnalysis.filteredResults]
    exact List.mem_filterMap.mpr ⟨p, hp, by simp [hinc]⟩
  · intro r hr
    simp only [MLAnalysis.filteredResults] at hr
    rcases List.mem_filterMap.mp hr with ⟨p, hp, hfp⟩
    by_cases h : MLAnalysis.includePred p = true
    · refine ⟨p, hp, h, ?_⟩
      rw [if_pos h] at hfp
      exact (Option.some.inj hfp).symm
    · rw [if_neg h] at hfp
      exact absurd hfp (Option.noConfusion)

/-- Claim C6 witness: the prediction (label "oil slick", score 0.5) passes the
filter and is assigned severity high. -/
theorem claim6_witness :
    MLAnalysis.classifyPred ⟨"oil slick", 1/2⟩ ∈ MLAnalysis.filteredResults [⟨"oil slick", 1/2⟩]
    ∧ (MLAnalysis.classifyPred ⟨"oil slick", 1/2⟩).severity = Severity.high := by
  obtain ⟨h1, h2, h3, h4⟩ := claim6_image_filter [⟨"oil slick", 1/2⟩]
  refine ⟨h1 _ (by simp) rfl, ?_⟩
  rw [h4 ⟨"oil slick", 1/2⟩ (Or.inl (by decide))]
  norm_num

/-- Claim C9: `analyzeImage` returns at most five results; with a non-empty
prediction list it never returns an empty result list, because when no
prediction passes the filter a generic fallback built from the top prediction
is added, with severity medium above score 0.7 and low otherwise. -/
theorem claim9_image_results (predictions : List Prediction) (p : Prediction)
    (ps : List Prediction) :
    ((MLAnalysis.analyzeImage predictions).2).length ≤ 5
    ∧ (MLAnalysis.analyzeImage (p :: ps)).2 ≠ []
    ∧ (MLAnalysis.filteredResults (p :: ps) = [] →
        (MLAnalysis.analyzeImage (p :: ps)).2 =
          [{ type := "Potential " ++ p.label, confidence := p.score,
             severity := if (7:ℚ)/10 < p.score then Severity.medium else Severity.low }]) := by
  refine ⟨List.length_take_le 5 _, ?_, ?_⟩
  · by_cases hf : MLAnalysis.filteredResults (p :: ps) = []
    · simp [MLAnalysis.analyzeImage, hf]
    · simp [MLAnalysis.analyzeImage, List.take_eq_nil_iff, hf,
        List.length_eq_zero]
  · intro hf
    simp [MLAnalysis.analyzeImage, hf, MLAnalysis.mkFallback]

/-- Claim C9 witness: the single prediction (label "cat", score 0.2) fails the
filter, and the analysis falls back to the single generic result with severity
low. -/
theorem claim9_witness :
    MLAnalysis.filteredResults [⟨"cat", 1/5⟩] = []
    ∧ (MLAnalysis.analyzeImage [⟨"cat", 1/5⟩]).2 =
        [{ type := "Potential cat", confidence := 1/5, severity := Severity.low }] := by
  have hnot : ¬ (MLAnalysis.includePred ⟨"cat", (1:ℚ)/5⟩ = true) := by
    rw [show MLAnalysis.includePred ⟨"cat", (1:ℚ)/5⟩ = decide ((3:ℚ)/10 < 1/5) from rfl]
    norm_num
  have hf : MLAnalysis.filteredResults [⟨"cat", 1/5⟩] = [] := by
    simp only [MLAnalysis.filteredResults, List.filterMap_cons, List.filterMap_nil]
    rw [if_neg hnot]
  have h := (claim9_image_results [⟨"cat", 1/5⟩] ⟨"cat", 1/5⟩ []).2.2 hf
  refine ⟨hf, ?_⟩
  rw [h]
  norm_num [show ("Potential " ++ "cat" : String) = "Potential cat" from rfl]

/-- Claim C10: every match returned by either `analyzeText` keeps all document
fields other than the relevance score (id, title, type, jurisdiction, summary,
key entities, last-updated date, status) unchanged from its entry of the
hardcoded policy database. -/
theorem claim10_document_frame (cls : Classification) (sentiment : List SentimentResult)
    (text : String) (sentiment₂ : List SentimentResult) :
    (∀ m ∈ (MLAnalysis.analyzeText cls sentiment).2, ∃ p ∈ policyDatabase,
        m.document.id = p.id ∧ m.document.title = p.title ∧
        m.document.type = p.type ∧ m.document.jurisdiction = p.jurisdiction ∧
        m.document.summary = p.summary ∧ m.document.keyEntities = p.keyEntities ∧
        m.document.lastUpdated = p.lastUpdated ∧ m.document.status = p.status)
    ∧ (∀ m ∈ (PollutionHook.analyzeText text sentiment₂).2, ∃ p ∈ policyDatabase,
        m.document.id = p.id ∧ m.document.title = p.title ∧
        m.document.type = p.type ∧ m.document.jurisdiction = p.jurisdiction ∧
        m.document.summary = p.summary ∧ m.document.keyEntities = p.keyEntities ∧
        m.document.lastUpdated = p.lastUpdated ∧ m.document.status = p.status) := by
  constructor
  · intro m hm
    rw [mlAnalyzeText_snd] at hm
    exact mkMatches_frame _ _ m hm
  · intro m hm
    rw [hookAnalyzeText_snd] at hm
    exact mkMatches_frame _ _ m hm

/-- Claim C10 witness: the first match of a concrete run keeps all non-score
document fields of a database entry. -/
theorem claim10_witness :
    ∃ p ∈ policyDatabase,
      (((MLAnalysis.analyzeText ⟨["oil spill"], [9/10]⟩ []).2.headD default).document.id = p.id)
      ∧ ((MLAnalysis.analyzeText ⟨["oil spill"], [9/10]⟩ []).2.headD default).document.title = p.title
      ∧ ((MLAnalysis.analyzeText ⟨["oil spill"], [9/10]⟩ []).2.headD default).document.type = p.type
      ∧ ((MLAnalysis.analyzeText ⟨["oil spill"], [9/10]⟩ []).2.headD default).document.jurisdiction = p.jurisdiction
      ∧ ((MLAnalysis.analyzeText ⟨["oil spill"], [9/10]⟩ []).2.headD default).document.summary = p.summary
      ∧ ((MLAnalysis.analyzeText ⟨["oil spill"], [9/10]⟩ []).2.headD default).document.keyEntities = p.keyEntities
      ∧ ((MLAnalysis.analyzeText ⟨["oil spill"], [9/10]⟩ []).2.headD default).document.lastUpdated = p.lastUpdated
      ∧ ((MLAnalysis.analyzeText ⟨["oil spill"], [9/10]⟩ []).2.headD default).document.status = p.status := by
  refine (claim10_document_frame ⟨["oil spill"], [9/10]⟩ [] "" []).1 _ ?_
  rw [mlAnalyzeText_snd, mkMatches_eq]
  exact List.mem_cons_self _ _

end OceanWatch
